import Mathlib

/-!
Verification of the validation and chain-synchronization core of the Tari
base layer against its natural-language specification.

The Rust sources embedded here (shallowly, as executable Lean definitions):

* base_layer/core/src/base_node/state_machine_service/states/helpers.rs
  (sync peer selection and exclusion)
* base_layer/core/src/validation/helpers.rs
  (median timestamp and header timestamp checks)
* base_layer/core/src/chain_storage/accumulated_data.rs
  (accumulated data model, difficulty builder, serde round trip)
* base_layer/core/src/base_node/sync/block_sync/validator.rs
  (block validator)
* base_layer/core/src/base_node/state_machine_service/states/horizon_state_sync/
  horizon_state_synchronization.rs (horizon sync phases)

Machine integers (u64, u128) are modelled as Nat; overflow is noted where it
could matter.  External collaborators (RPC streams, the backing store, the
MMR crate, cryptographic routines) are modelled as explicit parameters or as
spec-modelled definitions, each marked in its doc comment.
-/

namespace Tari

/-- Hashes (HashOutput, commitment roots) are opaque byte vectors compared
only for equality; modelled as Nat. -/
abbrev Hash : Type := Nat

/-- Pedersen commitments are opaque values compared only for equality. -/
abbrev Commitment : Type := Nat

/-- Pruned hash set of an MMR (tari_mmr crate, external to src): a flat,
position-indexed collection of hashes, opaque to the code embedded here. -/
abbrev PrunedHashSet : Type := List Hash

/-- Croaring bitmap over MMR leaf positions, modelled as the list of set
positions. -/
abbrev Bitmap : Type := List Nat

/-- Union of two bitmaps (croaring Bitmap::or), on the set-of-positions
representation. -/
def bitmapOr (a b : Bitmap) : Bitmap :=
  a ++ b.filter (fun x => !(a.contains x))

/-- Byte serialization of a croaring bitmap (Bitmap::serialize).  The croaring
codec is external and lossless; it is modelled as the identity on the
set-of-positions representation. -/
def bitmapSerialize (b : Bitmap) : List Nat := b

/-- Inverse of bitmapSerialize (croaring Bitmap::deserialize). -/
def bitmapDeserialize (bytes : List Nat) : Bitmap := bytes

/-- MmrTree from chain_storage (declared outside src; constructors as used by
the embedded code: Kernel, Utxo, RangeProof). -/
inductive MmrTree where
  | kernel
  | utxo
  | rangeProof
deriving DecidableEq, Repr

/-- ChainStorageError, reduced to the variants the embedded code produces. -/
inductive ChainStorageError where
  | valueNotFound
  | invalidOperation
deriving DecidableEq, Repr

/-! ## Sync peer selection (states/helpers.rs) -/

/-- SyncPeer: a peer handle (node_id) plus its claimed chain metadata; the
metadata is opaque here.  Two entries may share a node_id while differing in
metadata. -/
structure SyncPeer where
  node_id : Nat
  chain_metadata : Nat
deriving DecidableEq, Repr

/-- BaseNodeRequestError, reduced to the variants used here. -/
inductive BaseNodeRequestError where
  | maxRequestAttemptsReached
  | noSyncPeers
deriving DecidableEq, Repr

/-- Embeds exclude_sync_peer (states/helpers.rs lines 103 to 115): the working
set is retained to the peers whose node_id differs from the given peer, then
NoSyncPeers is returned when the set is empty.  The in-place mutation of
sync_peers is modelled by returning the new list alongside the result. -/
def exclude_sync_peer (sync_peers : List SyncPeer) (sync_peer : SyncPeer) :
    Except BaseNodeRequestError Unit × List SyncPeer :=
  let retained := sync_peers.filter (fun p => p.node_id ≠ sync_peer.node_id)
  if retained.isEmpty then
    (Except.error BaseNodeRequestError.noSyncPeers, retained)
  else
    (Except.ok (), retained)

/-- Claimed behaviour of exclude_sync_peer, written from the words of the
claim: remove one peer (the given one) from the working set, leave the rest
of the set unchanged, and fail with NoSyncPeers exactly when the set is empty
after the removal. -/
def exclude_sync_peer_claimed (sync_peers : List SyncPeer) (sync_peer : SyncPeer) :
    Except BaseNodeRequestError Unit × List SyncPeer :=
  let remaining := sync_peers.erase sync_peer
  if remaining.isEmpty then
    (Except.error BaseNodeRequestError.noSyncPeers, remaining)
  else
    (Except.ok (), remaining)

/-! ## Median timestamp checks (validation/helpers.rs) -/

/-- EpochTime is a u64 seconds count; modelled as Nat. -/
abbrev EpochTime : Type := Nat

/-- BlockHeaderValidationError, reduced to the variants used here.  The
InvalidTimestamp variant carries a message string in the source, immaterial
to the embedded claims. -/
inductive BlockHeaderValidationError where
  | invalidTimestamp
deriving DecidableEq, Repr

/-- TransactionError, reduced to the variants used here. -/
inductive TransactionError where
  | inputMaturity
deriving DecidableEq, Repr

/-- BlockValidationError, reduced to the variants used here. -/
inductive BlockValidationError where
  | noCutThrough
  | blockTooLarge
  | mismatchedMmrRoots
deriving DecidableEq, Repr

/-- ValidationError, reduced to the variants used here. -/
inductive ValidationError where
  | blockHeaderError (e : BlockHeaderValidationError)
  | transactionError (e : TransactionError)
  | blockError (e : BlockValidationError)
deriving DecidableEq, Repr

/-- Embeds calc_median_timestamp (validation/helpers.rs lines 69 to 88).  The
source asserts that the slice is non-empty and panics otherwise; the panic is
modelled as none.  For a non-empty slice it returns the middle element for an
odd length and the floor average of the two middle elements for an even
length (u64 division). -/
def calc_median_timestamp (timestamps : List EpochTime) : Option EpochTime :=
  if timestamps.isEmpty then
    none
  else
    let mid_index := timestamps.length / 2
    if timestamps.length % 2 = 0 then
      some ((timestamps.getD (mid_index - 1) 0 + timestamps.getD mid_index 0) / 2)
    else
      some (timestamps.getD mid_index 0)

/-- Embeds check_header_timestamp_greater_than_median (validation/helpers.rs
lines 90 to 118).  Only the header timestamp participates, so the header is
passed as its timestamp.  The outer Option models reachability of a panic:
none would mean the call panicked inside calc_median_timestamp. -/
def check_header_timestamp_greater_than_median (header_timestamp : EpochTime)
    (timestamps : List EpochTime) : Option (Except ValidationError Unit) :=
  if timestamps.isEmpty then
    some (Except.error (ValidationError.blockHeaderError
      BlockHeaderValidationError.invalidTimestamp))
  else
    match calc_median_timestamp timestamps with
    | none => none
    | some median_timestamp =>
      if header_timestamp < median_timestamp then
        some (Except.error (ValidationError.blockHeaderError
          BlockHeaderValidationError.invalidTimestamp))
      else
        some (Except.ok ())

/-- Median of a non-empty timestamp list as the claim words it: the middle
element for odd length, the average of the two middle elements for even
length. -/
def medianOfClaim (timestamps : List EpochTime) : EpochTime :=
  let mid_index := timestamps.length / 2
  if timestamps.length % 2 = 0 then
    (timestamps.getD (mid_index - 1) 0 + timestamps.getD mid_index 0) / 2
  else
    timestamps.getD mid_index 0

/-! ## Accumulated data model (chain_storage/accumulated_data.rs) -/

/-- Difficulty (proof_of_work crate, declared outside src).  Modelled from
the spec: a u64 difficulty value; cumulative difficulties are running sums
per algorithm.  Arithmetic is treated as exact Nat arithmetic, as the spec
does not specify overflow behaviour. -/
abbrev Difficulty : Type := Nat

/-- BlindingFactor (Ristretto secret key, external crypto); opaque, compared
only for equality, with an addition used by total_kernel_offset. -/
abbrev BlindingFactor : Type := Nat

/-- PowAlgorithm as matched by the builder (Monero, Blake, Sha3). -/
inductive PowAlgorithm where
  | monero
  | blake
  | sha3
deriving DecidableEq, Repr

/-- BlockAccumulatedData (accumulated_data.rs lines 42 to 50): the prunable
per-height ledger snapshot. -/
structure BlockAccumulatedData where
  kernels : PrunedHashSet
  outputs : PrunedHashSet
  deleted : Bitmap
  range_proofs : PrunedHashSet
  total_kernel_sum : Commitment
  total_utxo_sum : Commitment
deriving DecidableEq, Repr

/-- Embeds BlockAccumulatedData::dissolve (accumulated_data.rs lines 77
to 79). -/
def BlockAccumulatedData.dissolve (d : BlockAccumulatedData) :
    PrunedHashSet × PrunedHashSet × PrunedHashSet × Bitmap :=
  (d.kernels, d.outputs, d.range_proofs, d.deleted)

/-- BlockHeaderAccumulatedData (accumulated_data.rs lines 311 to 323). -/
structure BlockHeaderAccumulatedData where
  hash : Hash
  total_kernel_offset : BlindingFactor
  achieved_difficulty : Difficulty
  total_accumulated_difficulty : Nat
  accumulated_monero_difficulty : Difficulty
  accumulated_blake_difficulty : Difficulty
  target_difficulty : Difficulty
deriving DecidableEq, Repr

/-- BlockHeaderAccumulatedDataBuilder (accumulated_data.rs lines 228
to 236). -/
structure BlockHeaderAccumulatedDataBuilder where
  hash : Option Hash := none
  total_kernel_offset : Option BlindingFactor := none
  achieved_difficulty : Option Difficulty := none
  accumulated_monero_difficulty : Option Difficulty := none
  accumulated_blake_difficulty : Option Difficulty := none
  target_difficulty : Option Difficulty := none
deriving DecidableEq, Repr

namespace BlockHeaderAccumulatedDataBuilder

/-- Embeds the hash setter (accumulated_data.rs lines 239 to 242). -/
def setHash (b : BlockHeaderAccumulatedDataBuilder) (hash : Hash) :
    BlockHeaderAccumulatedDataBuilder :=
  { b with hash := some hash }

/-- Embeds the total_kernel_offset setter (accumulated_data.rs lines 244
to 252). -/
def setTotalKernelOffset (b : BlockHeaderAccumulatedDataBuilder)
    (previous_kernel_offset current_offset : BlindingFactor) :
    BlockHeaderAccumulatedDataBuilder :=
  { b with total_kernel_offset := some (previous_kernel_offset + current_offset) }

/-- Embeds the target_difficulty setter (accumulated_data.rs lines 254
to 257). -/
def setTargetDifficulty (b : BlockHeaderAccumulatedDataBuilder)
    (target : Difficulty) : BlockHeaderAccumulatedDataBuilder :=
  { b with target_difficulty := some target }

/-- Embeds achieved_difficulty (accumulated_data.rs lines 259 to 279): the
accumulated difficulty of the matching algorithm grows by the achieved
difficulty, the other is carried over.  The Blake arm is unimplemented!() in
the source (a panic), modelled as none. -/
def achievedDifficulty (b : BlockHeaderAccumulatedDataBuilder)
    (previous : BlockHeaderAccumulatedData) (algo : PowAlgorithm)
    (achieved : Difficulty) : Option BlockHeaderAccumulatedDataBuilder :=
  match algo with
  | PowAlgorithm.monero =>
    some { b with
      accumulated_monero_difficulty :=
        some (previous.accumulated_monero_difficulty + achieved),
      accumulated_blake_difficulty :=
        some previous.accumulated_blake_difficulty,
      achieved_difficulty := some achieved }
  | PowAlgorithm.blake => none
  | PowAlgorithm.sha3 =>
    some { b with
      accumulated_monero_difficulty :=
        some previous.accumulated_monero_difficulty,
      accumulated_blake_difficulty :=
        some (previous.accumulated_blake_difficulty + achieved),
      achieved_difficulty := some achieved }

/-- Embeds build (accumulated_data.rs lines 281 to 307):
total_accumulated_difficulty is the product of the two per-algorithm
accumulated difficulties, computed in u128 (exact, since both factors are
u64 values). -/
def build (b : BlockHeaderAccumulatedDataBuilder) :
    Except ChainStorageError BlockHeaderAccumulatedData :=
  match b.accumulated_monero_difficulty with
  | none => Except.error ChainStorageError.invalidOperation
  | some monero_diff =>
    match b.accumulated_blake_difficulty with
    | none => Except.error ChainStorageError.invalidOperation
    | some blake_diff =>
      match b.hash with
      | none => Except.error ChainStorageError.invalidOperation
      | some hash =>
        match b.total_kernel_offset with
        | none => Except.error ChainStorageError.invalidOperation
        | some total_kernel_offset =>
          match b.achieved_difficulty with
          | none => Except.error ChainStorageError.invalidOperation
          | some achieved_difficulty =>
            match b.target_difficulty with
            | none => Except.error ChainStorageError.invalidOperation
            | some target_difficulty =>
              Except.ok {
                hash := hash
                total_kernel_offset := total_kernel_offset
                achieved_difficulty := achieved_difficulty
                total_accumulated_difficulty := monero_diff * blake_diff
                accumulated_monero_difficulty := monero_diff
                accumulated_blake_difficulty := blake_diff
                target_difficulty := target_difficulty }

end BlockHeaderAccumulatedDataBuilder

/-! ## Serde round trip for BlockAccumulatedData (accumulated_data.rs) -/

/-- Value in the serde data model produced while serializing a
BlockAccumulatedData field.  Nested values (pruned hash sets, commitments)
are serialized by their own external codecs, represented here as the values
themselves; the deleted bitmap is serialized to bytes first. -/
inductive WireValue where
  | phs (s : PrunedHashSet)
  | bytes (b : List Nat)
  | comm (c : Commitment)
deriving DecidableEq, Repr

/-- Serde deserialization errors produced by the visitor. -/
inductive DeserializeError where
  | invalidLength (n : Nat)
  | invalidType
deriving DecidableEq, Repr

/-- Embeds Serialize for BlockAccumulatedData (accumulated_data.rs lines 95
to 107): a six-field struct, in the order kernels, outputs, deleted (as
Bitmap::serialize bytes), range_proofs, total_kernel_sum, total_utxo_sum. -/
def serializeBlockAccumulatedData (d : BlockAccumulatedData) : List WireValue :=
  [ WireValue.phs d.kernels,
    WireValue.phs d.outputs,
    WireValue.bytes (bitmapSerialize d.deleted),
    WireValue.phs d.range_proofs,
    WireValue.comm d.total_kernel_sum,
    WireValue.comm d.total_utxo_sum ]

/-- Reads the next sequence element as a pruned hash set
(seq.next_element with the PrunedHashSet codec). -/
def nextPhs (w : List WireValue) (at_index : Nat) :
    Except DeserializeError (PrunedHashSet × List WireValue) :=
  match w with
  | [] => Except.error (DeserializeError.invalidLength at_index)
  | WireValue.phs s :: rest => Except.ok (s, rest)
  | _ :: _ => Except.error DeserializeError.invalidType

/-- Reads the next sequence element as a byte vector. -/
def nextBytes (w : List WireValue) (at_index : Nat) :
    Except DeserializeError (List Nat × List WireValue) :=
  match w with
  | [] => Except.error (DeserializeError.invalidLength at_index)
  | WireValue.bytes b :: rest => Except.ok (b, rest)
  | _ :: _ => Except.error DeserializeError.invalidType

/-- Reads the next sequence element as a commitment. -/
def nextComm (w : List WireValue) (at_index : Nat) :
    Except DeserializeError (Commitment × List WireValue) :=
  match w with
  | [] => Except.error (DeserializeError.invalidLength at_index)
  | WireValue.comm c :: rest => Except.ok (c, rest)
  | _ :: _ => Except.error DeserializeError.invalidType

/-- Embeds the visit_seq path of Deserialize for BlockAccumulatedData
(accumulated_data.rs lines 134 to 150): six next_element reads in the order
kernels, outputs, deleted bytes, range_proofs, total_kernel_sum,
total_utxo_sum, with the bitmap rebuilt through Bitmap::deserialize. -/
def deserializeBlockAccumulatedData (w : List WireValue) :
    Except DeserializeError BlockAccumulatedData := do
  let (kernels, w) ← nextPhs w 0
  let (outputs, w) ← nextPhs w 1
  let (deleted, w) ← nextBytes w 2
  let (range_proofs, w) ← nextPhs w 3
  let (total_kernel_sum, w) ← nextComm w 4
  let (total_utxo_sum, _) ← nextComm w 5
  Except.ok {
    kernels := kernels
    outputs := outputs
    deleted := bitmapDeserialize deleted
    range_proofs := range_proofs
    total_kernel_sum := total_kernel_sum
    total_utxo_sum := total_utxo_sum }

/-! ## Block model and the block sync validator (block_sync/validator.rs) -/

/-- OutputFeatures: the feature flags and the maturity height of an output. -/
structure OutputFeatures where
  flags : Nat
  maturity : Nat
deriving DecidableEq, Repr

/-- TransactionInput: a reference to the commitment and features of the
output being spent. -/
structure TransactionInput where
  features : OutputFeatures
  commitment : Commitment
deriving DecidableEq, Repr

/-- TransactionOutput: commitment, features and a range proof (opaque). -/
structure TransactionOutput where
  features : OutputFeatures
  commitment : Commitment
  proof : Nat
deriving DecidableEq, Repr

/-- TransactionKernel: excess commitment and excess signature (opaque);
signature verification is external cryptography and is passed in as an
oracle. -/
structure TransactionKernel where
  excess : Commitment
  excess_sig : Nat
deriving DecidableEq, Repr

/-- Embeds TransactionOutput::is_equal_to (transaction crate, declared
outside src).  Modelled from the spec: an output equals an input being spent
when they agree on commitment and features. -/
def TransactionOutput.is_equal_to (o : TransactionOutput)
    (input : TransactionInput) : Bool :=
  o.features = input.features && o.commitment = input.commitment

/-- AggregateBody: the inputs, outputs and kernels of a block body. -/
structure AggregateBody where
  inputs : List TransactionInput
  outputs : List TransactionOutput
  kernels : List TransactionKernel
deriving DecidableEq, Repr

/-- BlockHeader, restricted to the fields read by the embedded code. -/
structure BlockHeader where
  height : Nat
  timestamp : EpochTime
  prev_hash : Hash
  kernel_mr : Hash
  output_mr : Hash
  range_proof_mr : Hash
  kernel_mmr_size : Nat
  output_mmr_size : Nat
deriving DecidableEq, Repr

/-- Block: header plus body. -/
structure Block where
  header : BlockHeader
  body : AggregateBody
deriving DecidableEq, Repr

/-- MMR roots calculated from the backing store for a block
(db.calculate_mmr_roots), restricted to the roots the sync validator
compares. -/
structure MmrRoots where
  kernel_mr : Hash
  output_mr : Hash
  range_proof_mr : Hash
deriving DecidableEq, Repr

/-- External collaborators of BlockValidator::validate, passed as oracles:
the consensus constant for the maximum block weight at the height of the
block, the weight calculation of the aggregated body, the coinbase check
(check_outputs, consensus code outside src), the kernel excess signature
verification (external cryptography), and the MMR root calculation against
the backing store. -/
structure ValidatorEnv where
  maxBlockWeight : Nat
  calcWeight : AggregateBody → Nat
  coinbaseCheck : Block → Except ValidationError Unit
  verifySig : TransactionKernel → Bool
  calcMmrRoots : Block → Except ValidationError MmrRoots

/-- Embeds check_block_weight (validation/helpers.rs lines 182 to 198): ok
when the body weight is within the consensus maximum or the block is the
genesis block (height 0), BlockTooLarge otherwise. -/
def check_block_weight (env : ValidatorEnv) (block : Block) :
    Except ValidationError Unit :=
  if env.calcWeight block.body ≤ env.maxBlockWeight || block.header.height = 0 then
    Except.ok ()
  else
    Except.error (ValidationError.blockError BlockValidationError.blockTooLarge)

/-- Inner loop of BlockValidator::check_inputs over the remaining inputs:
for each input, first the maturity check (InputMaturity when
features.maturity exceeds the header height), then the cut-through check
(NoCutThrough when some output of the same block equals the input). -/
def check_inputs_loop (block : Block) : List TransactionInput →
    Except ValidationError Unit
  | [] => Except.ok ()
  | input :: rest =>
    if input.features.maturity > block.header.height then
      Except.error (ValidationError.transactionError TransactionError.inputMaturity)
    else if block.body.outputs.any (fun o => o.is_equal_to input) then
      Except.error (ValidationError.blockError BlockValidationError.noCutThrough)
    else
      check_inputs_loop block rest

/-- Embeds BlockValidator::check_inputs (block_sync/validator.rs lines 51
to 73). -/
def check_inputs (block : Block) : Except ValidationError Unit :=
  check_inputs_loop block block.body.inputs

/-- Embeds BlockValidator::check_outputs (block_sync/validator.rs lines 75
to 85): computes the expected coinbase and delegates to
check_coinbase_output, both consensus code outside src, modelled as the
coinbaseCheck oracle. -/
def check_outputs (env : ValidatorEnv) (block : Block) :
    Except ValidationError Unit :=
  env.coinbaseCheck block

/-- Embeds BlockValidator::check_mmr_roots (block_sync/validator.rs lines 87
to 114): the kernel, output and range proof roots of the header must equal
the calculated roots; any mismatch is MismatchedMmrRoots. -/
def check_mmr_roots (block : Block) (mmr_roots : MmrRoots) :
    Except ValidationError Unit :=
  if block.header.kernel_mr ≠ mmr_roots.kernel_mr then
    Except.error (ValidationError.blockError BlockValidationError.mismatchedMmrRoots)
  else if block.header.output_mr ≠ mmr_roots.output_mr then
    Except.error (ValidationError.blockError BlockValidationError.mismatchedMmrRoots)
  else if block.header.range_proof_mr ≠ mmr_roots.range_proof_mr then
    Except.error (ValidationError.blockError BlockValidationError.mismatchedMmrRoots)
  else
    Except.ok ()

/-- Embeds BlockValidator::validate (block_sync/validator.rs lines 116
to 155): weight check, input check, output check; then the kernel excess
signatures are verified across the kernels of the body but the verification
results are bound to an unused variable and never inspected, exactly as in
the source (the accounting balance call is commented out in the source and
is omitted); finally the MMR roots are calculated and compared. -/
def BlockValidator.validate (env : ValidatorEnv) (block : Block) :
    Except ValidationError Unit :=
  match check_block_weight env block with
  | Except.error e => Except.error e
  | Except.ok _ =>
    match check_inputs block with
    | Except.error e => Except.error e
    | Except.ok _ =>
      match check_outputs env block with
      | Except.error e => Except.error e
      | Except.ok _ =>
        let _a := block.body.kernels.map (fun k => env.verifySig k)
        match env.calcMmrRoots block with
        | Except.error e => Except.error e
        | Except.ok mmr_roots => check_mmr_roots block mmr_roots

/-! ## Horizon state synchronization (horizon_state_synchronization.rs) -/

/-- HorizonSyncError (error module of horizon_state_sync, declared outside
src), reduced to the variants named by the spec and produced by the embedded
code.  IncorrectResponse carries a message naming a header height in the
source; the height is kept as data here. -/
inductive HorizonSyncError where
  | emptyResponse
  | incorrectResponse (height : Nat)
  | invalidKernelSignature
  | conversionError
  | rpcError
  | invalidMmrRoot (tree : MmrTree)
  | maxSyncAttemptsReached
  | noSyncPeers
  | chainStorage (e : ChainStorageError)
deriving DecidableEq, Repr

/-- Modelled from the spec: HorizonSyncError::is_recoverable lives outside
src; section 7 of the spec classifies EmptyResponse, IncorrectResponse,
InvalidKernelSignature and ConversionError as peer-fault recoverable and
every other variant as fatal to the session. -/
def HorizonSyncError.is_recoverable : HorizonSyncError → Bool
  | HorizonSyncError.emptyResponse => true
  | HorizonSyncError.incorrectResponse _ => true
  | HorizonSyncError.invalidKernelSignature => true
  | HorizonSyncError.conversionError => true
  | _ => false

/-- ChainHeader (accumulated_data.rs lines 325 to 339): a header together
with its accumulated data; hash() returns the stored hash of the accumulated
data and height() the header height. -/
structure ChainHeader where
  header : BlockHeader
  accumulated_data : BlockHeaderAccumulatedData
deriving DecidableEq, Repr

/-- Embeds ChainHeader::height. -/
def ChainHeader.height (c : ChainHeader) : Nat := c.header.height

/-- Embeds ChainHeader::hash. -/
def ChainHeader.hash (c : ChainHeader) : Hash := c.accumulated_data.hash

/-- Write-transaction operations issued through the backing store during
horizon sync (the insert and update calls of the transaction builder). -/
inductive TxOp where
  | insertKernel (k : TransactionKernel) (header_hash : Hash) (mmr_position : Nat)
  | insertOutput (o : TransactionOutput) (header_hash : Hash) (mmr_position : Nat)
  | insertPrunedOutput (hash rp_hash : Hash) (header_hash : Hash) (mmr_position : Nat)
  | updatePrunedHashSet (tree : MmrTree) (header_hash : Hash) (pruned_set : PrunedHashSet)
  | updateDeleted (header_hash : Hash) (deleted : Bitmap)
deriving DecidableEq, Repr

/-- Contract of the tari_mmr crate (outside src), modelled from section 4.1
of the spec: root gives the merkle root after pushing an ordered list of leaf
hashes on top of a pruned state, pruned gives the compacted state after those
pushes, and mutableRoot gives the deletion-aware root of a pruned state under
a deletion bitmap. -/
structure MmrModel where
  root : PrunedHashSet → List Hash → Hash
  pruned : PrunedHashSet → List Hash → PrunedHashSet
  mutableRoot : PrunedHashSet → Bitmap → Hash

/-- External collaborators of sync_kernel_nodes, passed as oracles: the MMR
crate, include_legacy_deleted_hash (chain_storage, outside src), the kernel
hash function, and the three backing store reads it performs
(fetch_block_accumulated_data by previous header hash, fetch_chain_header by
height, fetch_header_containing_kernel_mmr by position). -/
structure KernelSyncEnv where
  mmr : MmrModel
  legacy : Hash → Hash
  kernelHash : TransactionKernel → Hash
  fetchAccData : Hash → Option BlockAccumulatedData
  fetchChainHeader : Nat → Option ChainHeader
  headerContainingKernelMmr : Nat → Option ChainHeader

/-- Outcome of one horizon sync phase: the result, whether an RPC stream to
the sync peer was opened, and the operations committed to the backing store
by the phase, in order. -/
structure PhaseOutcome where
  result : Except HorizonSyncError Unit
  rpcOpened : Bool
  committed : List TxOp
deriving Repr

/-- Embeds the while loop of sync_kernel_nodes
(horizon_state_synchronization.rs lines 173 to 217).  Stream items are the
awaited results of kernel_stream.next() after conversion: an error item
aborts the loop with that error.  Each kernel is buffered and inserted into
the pending write transaction keyed by the current header; when the MMR
position reaches kernel_mmr_size - 1 of the current header, the buffered
kernels are pushed onto an MMR seeded from the pruned set of the previous
header, the root is adjusted by include_legacy_deleted_hash and compared with
kernel_mr; on mismatch the loop returns InvalidMmrRoot(Kernel) with the
pending transaction dropped, on match the pruned hash set update is added and
the transaction committed, and the next header is fetched while positions
remain. -/
def syncKernelLoop (env : KernelSyncEnv) (endPos : Nat) :
    List (Except HorizonSyncError TransactionKernel) → ChainHeader →
    List TransactionKernel → List TxOp → List TxOp → Nat →
    Except HorizonSyncError Unit × List TxOp
  | [], _, _, _, committed, _ => (Except.ok (), committed)
  | item :: rest, current_header, kernels, pending, committed, mmr_position =>
    match item with
    | Except.error e => (Except.error e, committed)
    | Except.ok kernel =>
      let kernels := kernels ++ [kernel]
      let pending := pending ++
        [TxOp.insertKernel kernel current_header.hash mmr_position]
      if mmr_position = current_header.header.kernel_mmr_size - 1 then
        match env.fetchAccData current_header.header.prev_hash with
        | none =>
          (Except.error (HorizonSyncError.chainStorage ChainStorageError.valueNotFound),
            committed)
        | some block_data =>
          let kernel_pruned_set := block_data.dissolve.1
          let leaf_hashes := kernels.map env.kernelHash
          let mmr_root := env.legacy (env.mmr.root kernel_pruned_set leaf_hashes)
          if mmr_root ≠ current_header.header.kernel_mr then
            (Except.error (HorizonSyncError.invalidMmrRoot MmrTree.kernel), committed)
          else
            let pending := pending ++
              [TxOp.updatePrunedHashSet MmrTree.kernel current_header.hash
                (env.mmr.pruned kernel_pruned_set leaf_hashes)]
            let committed := committed ++ pending
            if mmr_position < endPos - 1 then
              match env.fetchChainHeader (current_header.height + 1) with
              | none =>
                (Except.error
                  (HorizonSyncError.chainStorage ChainStorageError.valueNotFound),
                  committed)
              | some next_header =>
                syncKernelLoop env endPos rest next_header [] [] committed
                  (mmr_position + 1)
            else
              syncKernelLoop env endPos rest current_header [] [] committed
                (mmr_position + 1)
      else
        syncKernelLoop env endPos rest current_header kernels pending committed
          (mmr_position + 1)

/-- Embeds sync_kernel_nodes (horizon_state_synchronization.rs lines 144
to 220): connects the RPC client, requests kernels in the range start to end,
finds the header containing kernel MMR position start + 1 and runs the sync
loop from position start with empty buffers. -/
def sync_kernel_nodes (env : KernelSyncEnv)
    (stream : List (Except HorizonSyncError TransactionKernel))
    (start endPos : Nat) : PhaseOutcome :=
  match env.headerContainingKernelMmr (start + 1) with
  | none =>
    { result := Except.error
        (HorizonSyncError.chainStorage ChainStorageError.valueNotFound)
      rpcOpened := true
      committed := [] }
  | some current_header =>
    let (result, committed) :=
      syncKernelLoop env endPos stream current_header [] [] [] start
    { result := result, rpcOpened := true, committed := committed }

/-- Embeds synchronize_kernels (horizon_state_synchronization.rs lines 115
to 142): local_num_kernels is the locally stored kernel MMR size
(fetch_mmr_size), header is the header at the horizon sync height
(fetch_header, ValueNotFound when missing); when local is at least the
kernel_mmr_size recorded by that header the phase returns Ok at once,
otherwise it delegates to sync_kernel_nodes with the missing range. -/
def synchronize_kernels (local_num_kernels : Nat) (header : Option BlockHeader)
    (env : KernelSyncEnv)
    (stream : List (Except HorizonSyncError TransactionKernel)) : PhaseOutcome :=
  match header with
  | none =>
    { result := Except.error
        (HorizonSyncError.chainStorage ChainStorageError.valueNotFound)
      rpcOpened := false
      committed := [] }
  | some header =>
    if local_num_kernels ≥ header.kernel_mmr_size then
      { result := Except.ok (), rpcOpened := false, committed := [] }
    else
      sync_kernel_nodes env stream local_num_kernels header.kernel_mmr_size

/-- One utxo entry of a SyncUtxosResponse: either a full output record (whose
proto conversion may fail, yielding ConversionError as in the source), or a
pruned stub carrying only the output hash and the range proof hash. -/
inductive SyncUtxo where
  | full (o : TransactionOutput)
  | fullInvalid
  | prunedStub (hash rp_hash : Hash)
deriving DecidableEq, Repr

/-- SyncUtxosResponse (proto, outside src): a batch of utxos plus the
serialized deletion bitmap diffs emitted for the header boundaries crossed
inside the batch. -/
structure SyncUtxosResponse where
  utxos : List SyncUtxo
  deleted_bitmaps : List (List Nat)
deriving DecidableEq, Repr

/-- External collaborators of sync_output_nodes, passed as oracles: the MMR
crate, include_legacy_deleted_hash, the output and range proof hash
functions, the backing store reads, and the header hash function used for
the end_header_hash of the request. -/
structure OutputSyncEnv where
  mmr : MmrModel
  legacy : Hash → Hash
  outputHash : TransactionOutput → Hash
  rpHash : TransactionOutput → Hash
  fetchAccData : Hash → Option BlockAccumulatedData
  fetchChainHeader : Nat → Option ChainHeader
  headerContainingUtxoMmr : Nat → Option ChainHeader
  blockHeaderHash : BlockHeader → Hash

/-- Result of working through the utxos of one response: either the loop
fails (with the operations committed so far), or it hands the updated state
to the next response. -/
inductive UtxoInnerResult where
  | failed (e : HorizonSyncError) (committed : List TxOp)
  | continueWith (current_header : ChainHeader) (output_hashes rp_hashes : List Hash)
      (pending committed : List TxOp) (mmr_position : Nat)
deriving Repr

/-- Embeds the inner for loop of sync_output_nodes
(horizon_state_synchronization.rs lines 294 to 381) over the utxos of one
response, carrying the deletion bitmap iterator of that response.  Each utxo
is inserted (full or pruned) into the pending transaction and its hashes
buffered; when the MMR position reaches output_mmr_size - 1 of the current
header, both trees are rebuilt from the pruned state of the previous header,
the next bitmap diff is taken from the iterator of the current response
(IncorrectResponse naming the header height when exhausted), the
deletion-aware output root and the legacy-adjusted range proof root are
compared with the header (InvalidMmrRoot(Utxo) and InvalidMmrRoot(RangeProof)
on mismatch), and on success the pruned sets and united bitmap are written
and the transaction committed. -/
def processUtxos (env : OutputSyncEnv) (endPos : Nat) :
    List SyncUtxo → List (List Nat) → ChainHeader → List Hash → List Hash →
    List TxOp → List TxOp → Nat → UtxoInnerResult
  | [], _, current_header, output_hashes, rp_hashes, pending, committed,
      mmr_position =>
    UtxoInnerResult.continueWith current_header output_hashes rp_hashes pending
      committed mmr_position
  | utxo :: rest, deleted_bitmaps, current_header, output_hashes, rp_hashes,
      pending, committed, mmr_position =>
    match utxo with
    | SyncUtxo.fullInvalid =>
      UtxoInnerResult.failed HorizonSyncError.conversionError committed
    | item =>
      let (output_hashes, rp_hashes, pending) :=
        match item with
        | SyncUtxo.full output =>
          (output_hashes ++ [env.outputHash output],
            rp_hashes ++ [env.rpHash output],
            pending ++ [TxOp.insertOutput output current_header.hash mmr_position])
        | _ =>
          match item with
          | SyncUtxo.prunedStub hash rp_hash =>
            (output_hashes ++ [hash], rp_hashes ++ [rp_hash],
              pending ++
                [TxOp.insertPrunedOutput hash rp_hash current_header.hash mmr_position])
          | _ => (output_hashes, rp_hashes, pending)
      if mmr_position = current_header.header.output_mmr_size - 1 then
        match env.fetchAccData current_header.header.prev_hash with
        | none =>
          UtxoInnerResult.failed
            (HorizonSyncError.chainStorage ChainStorageError.valueNotFound) committed
        | some block_data =>
          let output_pruned_set := block_data.dissolve.2.1
          let rp_pruned_set := block_data.dissolve.2.2.1
          let deleted := block_data.dissolve.2.2.2
          match deleted_bitmaps with
          | [] =>
            UtxoInnerResult.failed
              (HorizonSyncError.incorrectResponse current_header.height) committed
          | deleted_diff :: bitmaps_rest =>
            let bitmap := bitmapDeserialize deleted_diff
            let deleted := bitmapOr deleted bitmap
            let pruned_output_set := env.mmr.pruned output_pruned_set output_hashes
            let output_root := env.mmr.mutableRoot pruned_output_set deleted
            if output_root ≠ current_header.header.output_mr then
              UtxoInnerResult.failed
                (HorizonSyncError.invalidMmrRoot MmrTree.utxo) committed
            else
              let rp_root := env.legacy (env.mmr.root rp_pruned_set rp_hashes)
              if rp_root ≠ current_header.header.range_proof_mr then
                UtxoInnerResult.failed
                  (HorizonSyncError.invalidMmrRoot MmrTree.rangeProof) committed
              else
                let pending := pending ++
                  [ TxOp.updatePrunedHashSet MmrTree.utxo current_header.hash
                      pruned_output_set,
                    TxOp.updatePrunedHashSet MmrTree.rangeProof current_header.hash
                      (env.mmr.pruned rp_pruned_set rp_hashes),
                    TxOp.updateDeleted current_header.hash deleted ]
                let committed := committed ++ pending
                if mmr_position < endPos - 1 then
                  match env.fetchChainHeader (current_header.height + 1) with
                  | none =>
                    UtxoInnerResult.failed
                      (HorizonSyncError.chainStorage ChainStorageError.valueNotFound)
                      committed
                  | some next_header =>
                    processUtxos env endPos rest bitmaps_rest next_header [] [] []
                      committed (mmr_position + 1)
                else
                  processUtxos env endPos rest bitmaps_rest current_header [] [] []
                    committed (mmr_position + 1)
      else
        processUtxos env endPos rest deleted_bitmaps current_header output_hashes
          rp_hashes pending committed (mmr_position + 1)

/-- Embeds the while loop of sync_output_nodes over the streamed responses
(horizon_state_synchronization.rs lines 285 to 382): each awaited response
contributes its utxos and its own deletion bitmap iterator; a stream error
aborts the loop. -/
def syncOutputLoop (env : OutputSyncEnv) (endPos : Nat) :
    List (Except HorizonSyncError SyncUtxosResponse) → ChainHeader →
    List Hash → List Hash → List TxOp → List TxOp → Nat →
    Except HorizonSyncError Unit × List TxOp
  | [], _, _, _, _, committed, _ => (Except.ok (), committed)
  | item :: rest, current_header, output_hashes, rp_hashes, pending, committed,
      mmr_position =>
    match item with
    | Except.error e => (Except.error e, committed)
    | Except.ok res =>
      match processUtxos env endPos res.utxos res.deleted_bitmaps current_header
          output_hashes rp_hashes pending committed mmr_position with
      | UtxoInnerResult.failed e committed => (Except.error e, committed)
      | UtxoInnerResult.continueWith current_header output_hashes rp_hashes pending
          committed mmr_position =>
        syncOutputLoop env endPos rest current_header output_hashes rp_hashes
          pending committed mmr_position

/-- Embeds sync_output_nodes (horizon_state_synchronization.rs lines 252
to 384): connects the RPC client, requests utxos from start up to the header
identified by end_hash, finds the header containing utxo MMR position
start + 1 and runs the response loop from position start with empty
buffers. -/
def sync_output_nodes (env : OutputSyncEnv)
    (responses : List (Except HorizonSyncError SyncUtxosResponse))
    (start endPos : Nat) (_end_hash : Hash) : PhaseOutcome :=
  match env.headerContainingUtxoMmr (start + 1) with
  | none =>
    { result := Except.error
        (HorizonSyncError.chainStorage ChainStorageError.valueNotFound)
      rpcOpened := true
      committed := [] }
  | some current_header =>
    let (result, committed) :=
      syncOutputLoop env endPos responses current_header [] [] [] [] start
    { result := result, rpcOpened := true, committed := committed }

/-- Embeds synchronize_outputs (horizon_state_synchronization.rs lines 222
to 250): local_num_outputs is the locally stored output MMR size, header the
header at the horizon sync height; when local is at least the
output_mmr_size recorded by that header the phase returns Ok at once,
otherwise it delegates to sync_output_nodes with the missing range and the
header hash. -/
def synchronize_outputs (local_num_outputs : Nat) (header : Option BlockHeader)
    (env : OutputSyncEnv)
    (responses : List (Except HorizonSyncError SyncUtxosResponse)) : PhaseOutcome :=
  match header with
  | none =>
    { result := Except.error
        (HorizonSyncError.chainStorage ChainStorageError.valueNotFound)
      rpcOpened := false
      committed := [] }
  | some header =>
    if local_num_outputs ≥ header.output_mmr_size then
      { result := Except.ok (), rpcOpened := false, committed := [] }
    else
      sync_output_nodes env responses local_num_outputs header.output_mmr_size
        (env.blockHeaderHash header)

/-! ## The synchronize entry point and rollback (horizon_state_synchronization.rs) -/

/-- Awaited results of the calls synchronize performs, passed in as data:
prepare_for_sync (horizon_sync_begin), the two phases of begin_sync, the
finalize_horizon_sync transaction, and horizon_sync_rollback. -/
structure SynchronizeCalls where
  prepare : Except HorizonSyncError Unit
  kernelsPhase : Except HorizonSyncError Unit
  outputsPhase : Except HorizonSyncError Unit
  finalize : Except HorizonSyncError Unit
  rollback : Except HorizonSyncError Unit
deriving Repr

/-- Embeds begin_sync (horizon_state_synchronization.rs lines 107 to 113):
synchronize_kernels then synchronize_outputs, first error wins. -/
def begin_sync (c : SynchronizeCalls) : Except HorizonSyncError Unit :=
  match c.kernelsPhase with
  | Except.error e => Except.error e
  | Except.ok _ => c.outputsPhase

/-- Embeds synchronize (horizon_state_synchronization.rs lines 84 to 105)
together with rollback (lines 686 to 694).  The second component records
whether horizon_sync_rollback was invoked.  A prepare failure propagates
directly; a recoverable phase or finalize error is returned without
rollback; a non-recoverable one triggers rollback and is then returned,
unless the rollback itself fails, in which case the rollback error
propagates. -/
def synchronize (c : SynchronizeCalls) :
    Except HorizonSyncError Unit × Bool :=
  match c.prepare with
  | Except.error e => (Except.error e, false)
  | Except.ok _ =>
    match begin_sync c with
    | Except.ok _ =>
      match c.finalize with
      | Except.ok _ => (Except.ok (), false)
      | Except.error err =>
        if err.is_recoverable then
          (Except.error err, false)
        else
          match c.rollback with
          | Except.ok _ => (Except.error err, true)
          | Except.error re => (Except.error re, true)
    | Except.error err =>
      if err.is_recoverable then
        (Except.error err, false)
      else
        match c.rollback with
        | Except.ok _ => (Except.error err, true)
        | Except.error re => (Except.error re, true)

/-- First error among the kernel phase, the output phase and finalization,
in the order synchronize runs them. -/
def firstPhaseError (c : SynchronizeCalls) : Option HorizonSyncError :=
  match c.kernelsPhase with
  | Except.error e => some e
  | Except.ok _ =>
    match c.outputsPhase with
    | Except.error e => some e
    | Except.ok _ =>
      match c.finalize with
      | Except.error e => some e
      | Except.ok _ => none

/-! ## Theorems -/

/-- C10: deserializing the serialization of any BlockAccumulatedData value
succeeds and returns a value whose six fields (kernels, outputs,
range_proofs, the deleted bitmap, total_kernel_sum, total_utxo_sum) equal
the originals. -/
theorem blockAccumulatedData_serde_round_trip (d : BlockAccumulatedData) :
    deserializeBlockAccumulatedData (serializeBlockAccumulatedData d) =
      Except.ok d := rfl

/-- Helper: whatever values the builder holds, a successful build computes
total_accumulated_difficulty as the product of the two accumulated
difficulties. -/
theorem build_product_eq (b : BlockHeaderAccumulatedDataBuilder)
    (d : BlockHeaderAccumulatedData) (h : b.build = Except.ok d) :
    d.total_accumulated_difficulty =
      d.accumulated_monero_difficulty * d.accumulated_blake_difficulty := by
  unfold BlockHeaderAccumulatedDataBuilder.build at h
  repeat' split at h
  all_goals simp_all
  subst h
  rfl

/-- C7: every record produced by BlockHeaderAccumulatedDataBuilder.build has
total_accumulated_difficulty equal to the exact product of
accumulated_monero_difficulty and accumulated_blake_difficulty, and when the
builder was fed by achievedDifficulty from a previous record satisfying the
same product equation, the built total_accumulated_difficulty is at least
the previous one, so the value is non-decreasing along a prev_hash-linked
chain. -/
theorem build_total_accumulated_difficulty_product_monotone :
    (∀ (b : BlockHeaderAccumulatedDataBuilder) (d : BlockHeaderAccumulatedData),
      b.build = Except.ok d →
      d.total_accumulated_difficulty =
        d.accumulated_monero_difficulty * d.accumulated_blake_difficulty) ∧
    (∀ (b b2 : BlockHeaderAccumulatedDataBuilder)
      (previous : BlockHeaderAccumulatedData) (algo : PowAlgorithm)
      (achieved : Difficulty) (d : BlockHeaderAccumulatedData),
      previous.total_accumulated_difficulty =
        previous.accumulated_monero_difficulty *
          previous.accumulated_blake_difficulty →
      b.achievedDifficulty previous algo achieved = some b2 →
      b2.build = Except.ok d →
      previous.total_accumulated_difficulty ≤ d.total_accumulated_difficulty) := by
  constructor
  · exact build_product_eq
  · intro b b2 previous algo achieved d hprev hstep hbuild
    cases algo with
    | blake => simp [BlockHeaderAccumulatedDataBuilder.achievedDifficulty] at hstep
    | monero =>
      simp [BlockHeaderAccumulatedDataBuilder.achievedDifficulty] at hstep
      subst hstep
      unfold BlockHeaderAccumulatedDataBuilder.build at hbuild
      simp at hbuild
      repeat' split at hbuild
      all_goals simp_all
      subst hbuild
      exact Nat.mul_le_mul_right _ (Nat.le_add_right _ _)
    | sha3 =>
      simp [BlockHeaderAccumulatedDataBuilder.achievedDifficulty] at hstep
      subst hstep
      unfold BlockHeaderAccumulatedDataBuilder.build at hbuild
      simp at hbuild
      repeat' split at hbuild
      all_goals simp_all
      subst hbuild
      exact Nat.mul_le_mul_left _ (Nat.le_add_right _ _)

/-- Concrete previous record for the C7 witness; its total is 2 * 3 = 6. -/
def C7prev : BlockHeaderAccumulatedData :=
  { hash := 1, total_kernel_offset := 0, achieved_difficulty := 5,
    total_accumulated_difficulty := 6, accumulated_monero_difficulty := 2,
    accumulated_blake_difficulty := 3, target_difficulty := 5 }

/-- Concrete builder for the C7 witness with hash, offset and target set. -/
def C7builder : BlockHeaderAccumulatedDataBuilder :=
  ((({} : BlockHeaderAccumulatedDataBuilder).setHash 9).setTotalKernelOffset
    0 1).setTargetDifficulty 7

/-- Concrete built record for the C7 witness: Sha3 with achieved 4 on top of
C7prev gives accumulated difficulties 2 and 7 and total 14. -/
def C7built : BlockHeaderAccumulatedData :=
  { hash := 9, total_kernel_offset := 1, achieved_difficulty := 4,
    total_accumulated_difficulty := 14, accumulated_monero_difficulty := 2,
    accumulated_blake_difficulty := 7, target_difficulty := 7 }

/-- C7 witness: the monotonicity conclusion instantiated at a concrete
builder step from C7prev. -/
theorem build_total_accumulated_difficulty_product_monotone_witness :
    C7prev.total_accumulated_difficulty ≤ C7built.total_accumulated_difficulty :=
  build_total_accumulated_difficulty_product_monotone.2 C7builder _ C7prev
    PowAlgorithm.sha3 4 C7built rfl rfl rfl

/-- C8 counterexample data: two distinct working-set entries sharing a
node_id. -/
def C8peerA : SyncPeer := { node_id := 1, chain_metadata := 0 }

/-- C8 counterexample data: the second entry with the same node_id. -/
def C8peerB : SyncPeer := { node_id := 1, chain_metadata := 1 }

/-- C8 counterexample: on the working set [C8peerA, C8peerB], excluding
C8peerA removes both entries (retain filters on node_id), so the source
returns NoSyncPeers with an empty set, while the claimed behaviour (remove
one peer, the given one, leaving the rest unchanged, Ok when non-empty
afterwards) would keep C8peerB and return Ok. -/
theorem exclude_sync_peer_claim_counterexample :
    exclude_sync_peer [C8peerA, C8peerB] C8peerA ≠
      exclude_sync_peer_claimed [C8peerA, C8peerB] C8peerA := by
  intro h
  exact absurd (congrArg Prod.snd h) (by decide)

/-- C8 (amended): exclude_sync_peer removes every entry whose node_id equals
the node_id of the given peer, keeps exactly the other entries in their
original order, and fails with NoSyncPeers exactly when the set is empty
after the removal. -/
theorem exclude_sync_peer_spec :
    ∀ (sync_peers : List SyncPeer) (sync_peer : SyncPeer),
      (∀ q, q ∈ (exclude_sync_peer sync_peers sync_peer).2 ↔
        q ∈ sync_peers ∧ q.node_id ≠ sync_peer.node_id) ∧
      ((exclude_sync_peer sync_peers sync_peer).2).Sublist sync_peers ∧
      ((exclude_sync_peer sync_peers sync_peer).1 = Except.ok () ↔
        (exclude_sync_peer sync_peers sync_peer).2 ≠ []) ∧
      ((exclude_sync_peer sync_peers sync_peer).1 =
          Except.error BaseNodeRequestError.noSyncPeers ↔
        (exclude_sync_peer sync_peers sync_peer).2 = []) := by
  intro sync_peers sync_peer
  simp only [exclude_sync_peer]
  refine ⟨fun q => ?_, ?_, ?_, ?_⟩
  · split <;> simp [List.mem_filter]
  · split <;> exact List.filter_sublist _
  · split <;> rename_i hemp <;> simp_all [List.isEmpty_iff]
  · split <;> rename_i hemp <;> simp_all [List.isEmpty_iff]

/-- Helper: on a non-empty slice, calc_median_timestamp does not panic and
computes exactly the median described by the claim. -/
theorem calc_median_timestamp_eq_median (timestamps : List EpochTime)
    (h : timestamps ≠ []) :
    calc_median_timestamp timestamps = some (medianOfClaim timestamps) := by
  have hne : timestamps.isEmpty = false := by
    simp [List.isEmpty_iff, h]
  simp only [calc_median_timestamp, medianOfClaim, hne, Bool.false_eq_true,
    if_false]
  split <;> rfl

/-- C9: check_header_timestamp_greater_than_median never panics; on the
empty slice it returns the InvalidTimestamp error without reaching the
assertion of calc_median_timestamp (which on the empty slice would panic,
modelled as none); on a non-empty slice it returns Ok exactly when the
header timestamp is at least the median, the middle element for an odd
length and the floor average of the two middle elements for an even
length. -/
theorem check_header_timestamp_greater_than_median_safe :
    (calc_median_timestamp [] = none) ∧
    ∀ (header_timestamp : EpochTime) (timestamps : List EpochTime),
      (check_header_timestamp_greater_than_median header_timestamp
        timestamps).isSome = true ∧
      (timestamps = [] →
        check_header_timestamp_greater_than_median header_timestamp timestamps =
          some (Except.error (ValidationError.blockHeaderError
            BlockHeaderValidationError.invalidTimestamp))) ∧
      (timestamps ≠ [] →
        (check_header_timestamp_greater_than_median header_timestamp timestamps =
            some (Except.ok ()) ↔
          medianOfClaim timestamps ≤ header_timestamp)) := by
  refine ⟨rfl, ?_⟩
  intro header_timestamp timestamps
  by_cases hemp : timestamps = []
  · subst hemp
    exact ⟨rfl, fun _ => rfl, fun h => absurd rfl h⟩
  · have hne : timestamps.isEmpty = false := by
      simp [List.isEmpty_iff, hemp]
    refine ⟨?_, fun h => absurd h hemp, fun _ => ?_⟩
    · simp only [check_header_timestamp_greater_than_median, hne,
        Bool.false_eq_true, if_false, calc_median_timestamp_eq_median timestamps hemp]
      split <;> rfl
    · simp only [check_header_timestamp_greater_than_median, hne,
        Bool.false_eq_true, if_false, calc_median_timestamp_eq_median timestamps hemp]
      split
      next hlt =>
        simp only [Option.some.injEq, iff_iff_implies_and_implies]
        constructor
        · intro hcontra
          cases hcontra
        · intro hle
          exact absurd hle (Nat.not_le.mpr hlt)
      next hlt =>
        simp only [Option.some.injEq, true_iff, iff_true]
        exact Nat.le_of_not_lt hlt

/-- C8 witness data: a peer with a node_id distinct from C8peerA. -/
def C8peerC : SyncPeer := { node_id := 2, chain_metadata := 0 }

/-- C8 witness: excluding a peer whose node_id is absent leaves the
singleton set intact and the amended characterization yields Ok. -/
theorem exclude_sync_peer_spec_witness :
    (exclude_sync_peer [C8peerA] C8peerC).1 = Except.ok () :=
  ((exclude_sync_peer_spec [C8peerA] C8peerC).2.2.1).mpr (by decide)

/-- C9 witness: on the odd-length slice [1, 2, 4] the median is 2 and a
header timestamp of 3 passes the check. -/
theorem check_header_timestamp_greater_than_median_safe_witness :
    check_header_timestamp_greater_than_median 3 [1, 2, 4] =
      some (Except.ok ()) :=
  (((check_header_timestamp_greater_than_median_safe.2 3 [1, 2, 4]).2.2
    (by decide)).mpr (by decide))

/-- Helper: the input loop accepts exactly the lists whose inputs are all
mature and matched by no output of the block. -/
theorem check_inputs_loop_ok_iff (block : Block) (l : List TransactionInput) :
    check_inputs_loop block l = Except.ok () ↔
      ∀ i ∈ l, i.features.maturity ≤ block.header.height ∧
        ∀ o ∈ block.body.outputs, o.is_equal_to i = false := by
  induction l with
  | nil => simp [check_inputs_loop]
  | cons input rest ih =>
    simp only [check_inputs_loop]
    split
    next hmat =>
      simp only [List.mem_cons]
      constructor
      · intro h
        cases h
      · intro h
        exact absurd ((h input (Or.inl rfl)).1) (Nat.not_le.mpr hmat)
    next hmat =>
      split
      next hcut =>
        simp only [List.mem_cons]
        constructor
        · intro h
          cases h
        · intro h
          obtain ⟨o, ho, hoeq⟩ := List.any_eq_true.mp hcut
          have := (h input (Or.inl rfl)).2 o ho
          simp [this] at hoeq
      next hcut =>
        rw [ih]
        constructor
        · intro h i hi
          cases hi with
          | head =>
            refine ⟨Nat.le_of_not_lt hmat, fun o ho => ?_⟩
            have := fun hx => hcut (List.any_eq_true.mpr ⟨o, ho, hx⟩)
            cases hoi : o.is_equal_to input with
            | false => rfl
            | true => exact absurd (by simp [hoi]) this
          | tail _ hmem => exact h i hmem
        · intro h i hi
          exact h i (List.mem_cons_of_mem _ hi)

/-- Helper: an error from the input loop is the maturity error for some
immature input or the cut-through error for some input matched by an
output. -/
theorem check_inputs_loop_error (block : Block) (l : List TransactionInput)
    (e : ValidationError) (h : check_inputs_loop block l = Except.error e) :
    (e = ValidationError.transactionError TransactionError.inputMaturity ∧
      ∃ i ∈ l, block.header.height < i.features.maturity) ∨
    (e = ValidationError.blockError BlockValidationError.noCutThrough ∧
      ∃ i ∈ l, ∃ o ∈ block.body.outputs, o.is_equal_to i = true) := by
  induction l with
  | nil => simp [check_inputs_loop] at h
  | cons input rest ih =>
    simp only [check_inputs_loop] at h
    split at h
    next hmat =>
      cases h
      exact Or.inl ⟨rfl, input, List.mem_cons_self _ _, hmat⟩
    next hmat =>
      split at h
      next hcut =>
        cases h
        obtain ⟨o, ho, hoeq⟩ := List.any_eq_true.mp hcut
        exact Or.inr ⟨rfl, input, List.mem_cons_self _ _, o, ho, hoeq⟩
      next hcut =>
        cases ih h with
        | inl hc =>
          obtain ⟨he, i, hi, hlt⟩ := hc
          exact Or.inl ⟨he, i, List.mem_cons_of_mem _ hi, hlt⟩
        | inr hc =>
          obtain ⟨he, i, hi, o, ho, hoi⟩ := hc
          exact Or.inr ⟨he, i, List.mem_cons_of_mem _ hi, o, ho, hoi⟩

/-- C4: check_inputs accepts a block exactly when every input is mature at
the header height and no output of the block equals an input being spent;
any error it returns is the InputMaturity transaction error witnessed by an
immature input or NoCutThrough witnessed by an output equal to a spent
input; and when the weight check passes and check_inputs rejects, validate
returns that error whatever the MMR root oracle does, so the rejection
happens before any MMR root is computed. -/
theorem check_inputs_maturity_and_cut_through :
    ∀ (block : Block),
      (check_inputs block = Except.ok () ↔
        ∀ i ∈ block.body.inputs, i.features.maturity ≤ block.header.height ∧
          ∀ o ∈ block.body.outputs, o.is_equal_to i = false) ∧
      (∀ e, check_inputs block = Except.error e →
        (e = ValidationError.transactionError TransactionError.inputMaturity ∧
          ∃ i ∈ block.body.inputs, block.header.height < i.features.maturity) ∨
        (e = ValidationError.blockError BlockValidationError.noCutThrough ∧
          ∃ i ∈ block.body.inputs, ∃ o ∈ block.body.outputs,
            o.is_equal_to i = true)) ∧
      (∀ (env : ValidatorEnv) (e : ValidationError),
        check_block_weight env block = Except.ok () →
        check_inputs block = Except.error e →
        BlockValidator.validate env block = Except.error e) := by
  intro block
  refine ⟨check_inputs_loop_ok_iff block block.body.inputs,
    fun e => check_inputs_loop_error block block.body.inputs e,
    fun env e hweight hinputs => ?_⟩
  simp [BlockValidator.validate, hweight, hinputs]

/-- C4 witness data: an oracle environment whose MMR root calculation always
fails, to exhibit that the input check rejects first. -/
def C4env : ValidatorEnv :=
  { maxBlockWeight := 100
    calcWeight := fun body =>
      body.inputs.length + body.outputs.length + body.kernels.length
    coinbaseCheck := fun _ => Except.ok ()
    verifySig := fun _ => true
    calcMmrRoots := fun _ =>
      Except.error (ValidationError.blockError
        BlockValidationError.mismatchedMmrRoots) }

/-- C4 witness data: a block at height 10 whose output list duplicates the
input being spent. -/
def C4block : Block :=
  { header :=
    { height := 10, timestamp := 0, prev_hash := 0, kernel_mr := 0,
      output_mr := 0, range_proof_mr := 0, kernel_mmr_size := 1,
      output_mmr_size := 1 }
    body :=
    { inputs := [{ features := { flags := 0, maturity := 0 }, commitment := 5 }]
      outputs :=
        [{ features := { flags := 0, maturity := 0 }, commitment := 5, proof := 0 }]
      kernels := [] } }

/-- C4 witness: the duplicated commitment makes validate fail with
NoCutThrough even though the MMR root oracle of C4env always errors, showing
the rejection precedes any root computation. -/
theorem check_inputs_maturity_and_cut_through_witness :
    BlockValidator.validate C4env C4block =
      Except.error (ValidationError.blockError BlockValidationError.noCutThrough) :=
  (check_inputs_maturity_and_cut_through C4block).2.2 C4env _ (by rfl) (by rfl)

/-- C1 data: an environment whose kernel signature oracle rejects every
kernel while all other checks pass (roots are read back from the header). -/
def C1env : ValidatorEnv :=
  { maxBlockWeight := 100
    calcWeight := fun body =>
      body.inputs.length + body.outputs.length + body.kernels.length
    coinbaseCheck := fun _ => Except.ok ()
    verifySig := fun _ => false
    calcMmrRoots := fun block =>
      Except.ok
        { kernel_mr := block.header.kernel_mr
          output_mr := block.header.output_mr
          range_proof_mr := block.header.range_proof_mr } }

/-- C1 data: a block with one kernel. -/
def C1block : Block :=
  { header :=
    { height := 1, timestamp := 0, prev_hash := 0, kernel_mr := 0,
      output_mr := 0, range_proof_mr := 0, kernel_mmr_size := 1,
      output_mmr_size := 1 }
    body :=
    { inputs := [], outputs := [],
      kernels := [{ excess := 0, excess_sig := 0 }] } }

/-- C1: evaluation of the embedded BlockValidator::validate at the failing
input of the code bug: the block carries a kernel whose excess signature
fails verification, yet validate returns Ok, because the source binds the
signature verification results to an unused variable and never inspects
them.  The claim (and the spec) require the kernel signature error here. -/
theorem validate_ok_despite_failing_kernel_signature :
    BlockValidator.validate C1env C1block = Except.ok () ∧
    C1block.body.kernels = [{ excess := 0, excess_sig := 0 }] ∧
    C1env.verifySig { excess := 0, excess_sig := 0 } = false :=
  ⟨rfl, rfl, rfl⟩

/-- C5: for a sync-height header on record, when the locally stored MMR size
of a tree is at least the size recorded by that header, the corresponding
phase returns Ok without opening an RPC stream and without committing any
transaction, leaving the store unchanged by that phase. -/
theorem horizon_sync_phase_skip_when_local_caught_up :
    (∀ (local_num_kernels : Nat) (h : BlockHeader) (env : KernelSyncEnv)
      (stream : List (Except HorizonSyncError TransactionKernel)),
      h.kernel_mmr_size ≤ local_num_kernels →
      synchronize_kernels local_num_kernels (some h) env stream =
        { result := Except.ok (), rpcOpened := false, committed := [] }) ∧
    (∀ (local_num_outputs : Nat) (h : BlockHeader) (env : OutputSyncEnv)
      (responses : List (Except HorizonSyncError SyncUtxosResponse)),
      h.output_mmr_size ≤ local_num_outputs →
      synchronize_outputs local_num_outputs (some h) env responses =
        { result := Except.ok (), rpcOpened := false, committed := [] }) := by
  constructor
  · intro n h env stream hle
    simp [synchronize_kernels, hle]
  · intro n h env responses hle
    simp [synchronize_outputs, hle]

/-- Test instance of the MMR contract used by the horizon sync witnesses. -/
def mmrModelT : MmrModel :=
  { root := fun s l => s.length + l.length
    pruned := fun s l => s ++ l
    mutableRoot := fun s b => s.length + b.length }

/-- Accumulated data shared by the horizon sync witnesses. -/
def accDataT : BlockHeaderAccumulatedData :=
  { hash := 42, total_kernel_offset := 0, achieved_difficulty := 0,
    total_accumulated_difficulty := 0, accumulated_monero_difficulty := 0,
    accumulated_blake_difficulty := 0, target_difficulty := 0 }

/-- C5 witness data: a kernel sync environment with empty oracles. -/
def C5kenv : KernelSyncEnv :=
  { mmr := mmrModelT, legacy := fun h => h + 1000,
    kernelHash := fun k => k.excess, fetchAccData := fun _ => none,
    fetchChainHeader := fun _ => none,
    headerContainingKernelMmr := fun _ => none }

/-- C5 witness data: an output sync environment with empty oracles. -/
def C5oenv : OutputSyncEnv :=
  { mmr := mmrModelT, legacy := fun h => h + 1000,
    outputHash := fun o => o.commitment, rpHash := fun o => o.proof,
    fetchAccData := fun _ => none, fetchChainHeader := fun _ => none,
    headerContainingUtxoMmr := fun _ => none,
    blockHeaderHash := fun h => h.height }

/-- C5 witness data: a header recording MMR sizes 4 and 4. -/
def C5header : BlockHeader :=
  { height := 3, timestamp := 0, prev_hash := 0, kernel_mr := 0,
    output_mr := 0, range_proof_mr := 0, kernel_mmr_size := 4,
    output_mmr_size := 4 }

/-- C5 witness: with local sizes 4 both phases are no-ops. -/
theorem horizon_sync_phase_skip_witness :
    synchronize_kernels 4 (some C5header) C5kenv [] =
      { result := Except.ok (), rpcOpened := false, committed := [] } ∧
    synchronize_outputs 4 (some C5header) C5oenv [] =
      { result := Except.ok (), rpcOpened := false, committed := [] } :=
  ⟨horizon_sync_phase_skip_when_local_caught_up.1 4 C5header C5kenv []
      (by decide),
    horizon_sync_phase_skip_when_local_caught_up.2 4 C5header C5oenv []
      (by decide)⟩

/-- C3: whenever the kernel sync loop receives a kernel at the MMR position
kernel_mmr_size - 1 of the current header, it seeds an MMR from the kernel
pruned set of the previous header, pushes the buffered kernel hashes, applies
include_legacy_deleted_hash, and if the result differs from the kernel_mr of
the header it returns InvalidMmrRoot(Kernel) and commits nothing further: the
write transaction of that header (the pending operations) is dropped. -/
theorem sync_kernel_nodes_invalid_mmr_root :
    ∀ (env : KernelSyncEnv) (endPos : Nat) (kernel : TransactionKernel)
      (rest : List (Except HorizonSyncError TransactionKernel))
      (current_header : ChainHeader) (kernels : List TransactionKernel)
      (pending committed : List TxOp) (mmr_position : Nat)
      (block_data : BlockAccumulatedData),
      mmr_position = current_header.header.kernel_mmr_size - 1 →
      env.fetchAccData current_header.header.prev_hash = some block_data →
      env.legacy (env.mmr.root block_data.dissolve.1
          ((kernels ++ [kernel]).map env.kernelHash)) ≠
        current_header.header.kernel_mr →
      syncKernelLoop env endPos (Except.ok kernel :: rest) current_header
        kernels pending committed mmr_position =
        (Except.error (HorizonSyncError.invalidMmrRoot MmrTree.kernel),
          committed) := by
  intro env endPos kernel rest current_header kernels pending committed
    mmr_position block_data hpos hfetch hroot
  have hroot2 : env.legacy (env.mmr.root block_data.dissolve.1
      (List.map env.kernelHash kernels ++ [env.kernelHash kernel])) ≠
      current_header.header.kernel_mr := by
    simpa using hroot
  simp [syncKernelLoop, hpos, hfetch, hroot2]

/-- C3 witness data: previous-header accumulated data holding one kernel
hash. -/
def C3bd : BlockAccumulatedData :=
  { kernels := [11], outputs := [], deleted := [], range_proofs := [],
    total_kernel_sum := 0, total_utxo_sum := 0 }

/-- C3 witness data: a chain header whose kernel_mr does not match the
recomputed root. -/
def C3header : ChainHeader :=
  { header :=
    { height := 2, timestamp := 0, prev_hash := 7, kernel_mr := 0,
      output_mr := 0, range_proof_mr := 0, kernel_mmr_size := 1,
      output_mmr_size := 1 }
    accumulated_data := accDataT }

/-- C3 witness data: environment resolving the previous header to C3bd. -/
def C3env : KernelSyncEnv :=
  { mmr := mmrModelT, legacy := fun h => h + 1000,
    kernelHash := fun k => k.excess,
    fetchAccData := fun h => if h = 7 then some C3bd else none,
    fetchChainHeader := fun _ => none,
    headerContainingKernelMmr := fun _ => some C3header }

/-- C3 witness: a single streamed kernel lands on the boundary position 0,
the adjusted root is 1002 while kernel_mr is 0, so the loop fails with
InvalidMmrRoot(Kernel) and commits nothing. -/
theorem sync_kernel_nodes_invalid_mmr_root_witness :
    syncKernelLoop C3env 1 [Except.ok { excess := 3, excess_sig := 0 }]
      C3header [] [] [] 0 =
      (Except.error (HorizonSyncError.invalidMmrRoot MmrTree.kernel), []) :=
  sync_kernel_nodes_invalid_mmr_root C3env 1 { excess := 3, excess_sig := 0 }
    [] C3header [] [] [] 0 C3bd (by decide) (by rfl) (by decide)

/-- C6: whenever the output sync loop processes a utxo at the MMR position
output_mmr_size - 1 of the current header while the deletion bitmap iterator
of the current response is exhausted, it fails with IncorrectResponse naming
the height of that header, both at the per-response level and through the
response loop of sync_output_nodes. -/
theorem sync_output_nodes_missing_bitmap_incorrect_response :
    ∀ (env : OutputSyncEnv) (endPos : Nat) (utxo : SyncUtxo)
      (rest : List SyncUtxo) (more : List (Except HorizonSyncError SyncUtxosResponse))
      (current_header : ChainHeader) (output_hashes rp_hashes : List Hash)
      (pending committed : List TxOp) (mmr_position : Nat)
      (block_data : BlockAccumulatedData),
      utxo ≠ SyncUtxo.fullInvalid →
      mmr_position = current_header.header.output_mmr_size - 1 →
      env.fetchAccData current_header.header.prev_hash = some block_data →
      processUtxos env endPos (utxo :: rest) [] current_header output_hashes
        rp_hashes pending committed mmr_position =
        UtxoInnerResult.failed
          (HorizonSyncError.incorrectResponse current_header.height) committed ∧
      syncOutputLoop env endPos
        (Except.ok { utxos := utxo :: rest, deleted_bitmaps := [] } :: more)
        current_header output_hashes rp_hashes pending committed mmr_position =
        (Except.error (HorizonSyncError.incorrectResponse current_header.height),
          committed) := by
  intro env endPos utxo rest more current_header output_hashes rp_hashes
    pending committed mmr_position block_data hu hpos hfetch
  have hinner : processUtxos env endPos (utxo :: rest) [] current_header
      output_hashes rp_hashes pending committed mmr_position =
      UtxoInnerResult.failed
        (HorizonSyncError.incorrectResponse current_header.height) committed := by
    cases utxo with
    | fullInvalid => exact absurd rfl hu
    | full o => simp [processUtxos, hpos, hfetch]
    | prunedStub h rp => simp [processUtxos, hpos, hfetch]
  exact ⟨hinner, by simp [syncOutputLoop, hinner]⟩

/-- C6 witness data: previous-header accumulated data for the output
boundary. -/
def C6bd : BlockAccumulatedData :=
  { kernels := [], outputs := [21], deleted := [], range_proofs := [22],
    total_kernel_sum := 0, total_utxo_sum := 0 }

/-- C6 witness data: a chain header at height 2 expecting one output. -/
def C6header : ChainHeader :=
  { header :=
    { height := 2, timestamp := 0, prev_hash := 8, kernel_mr := 0,
      output_mr := 0, range_proof_mr := 0, kernel_mmr_size := 1,
      output_mmr_size := 1 }
    accumulated_data := accDataT }

/-- C6 witness data: environment resolving the previous header to C6bd. -/
def C6env : OutputSyncEnv :=
  { mmr := mmrModelT, legacy := fun h => h + 1000,
    outputHash := fun o => o.commitment, rpHash := fun o => o.proof,
    fetchAccData := fun h => if h = 8 then some C6bd else none,
    fetchChainHeader := fun _ => none,
    headerContainingUtxoMmr := fun _ => some C6header,
    blockHeaderHash := fun h => h.height }

/-- C6 witness: a response delivering one pruned stub and no bitmap diff at
the boundary fails with IncorrectResponse naming height 2. -/
theorem sync_output_nodes_missing_bitmap_witness :
    syncOutputLoop C6env 1
      [Except.ok { utxos := [SyncUtxo.prunedStub 5 6], deleted_bitmaps := [] }]
      C6header [] [] [] [] 0 =
      (Except.error (HorizonSyncError.incorrectResponse 2), []) :=
  (sync_output_nodes_missing_bitmap_incorrect_response C6env 1
    (SyncUtxo.prunedStub 5 6) [] [] C6header [] [] [] [] 0 C6bd
    (by decide) (by decide) (by rfl)).2

/-- C2: once prepare_for_sync succeeds, for any first error of the kernel
phase, the output phase or finalization: a recoverable error is returned
with no rollback; a non-recoverable one triggers horizon_sync_rollback and,
provided the rollback itself succeeds, that error is returned; and when all
phases succeed no rollback occurs. -/
theorem synchronize_rollback_on_nonrecoverable :
    ∀ (c : SynchronizeCalls), c.prepare = Except.ok () →
      (∀ e, firstPhaseError c = some e →
        (e.is_recoverable = true →
          synchronize c = (Except.error e, false)) ∧
        (e.is_recoverable = false →
          (synchronize c).2 = true ∧
          (c.rollback = Except.ok () →
            (synchronize c).1 = Except.error e))) ∧
      (firstPhaseError c = none → synchronize c = (Except.ok (), false)) := by
  intro c hprep
  obtain ⟨p, k, o, f, r⟩ := c
  replace hprep : p = Except.ok () := hprep
  subst hprep
  rcases k with ek | ⟨⟩
  · refine ⟨fun e he => ?_, fun hnone => ?_⟩
    · replace he : some ek = some e := he
      injection he with he
      subst he
      refine ⟨fun hrec => ?_, fun hrec => ?_⟩
      · simp [synchronize, begin_sync, hrec]
      · rcases r with er | ⟨⟩
        · exact ⟨by simp [synchronize, begin_sync, hrec],
            fun hrb => by simp at hrb⟩
        · exact ⟨by simp [synchronize, begin_sync, hrec],
            fun _ => by simp [synchronize, begin_sync, hrec]⟩
    · simp [firstPhaseError] at hnone
  · rcases o with eo | ⟨⟩
    · refine ⟨fun e he => ?_, fun hnone => ?_⟩
      · replace he : some eo = some e := he
        injection he with he
        subst he
        refine ⟨fun hrec => ?_, fun hrec => ?_⟩
        · simp [synchronize, begin_sync, hrec]
        · rcases r with er | ⟨⟩
          · exact ⟨by simp [synchronize, begin_sync, hrec],
              fun hrb => by simp at hrb⟩
          · exact ⟨by simp [synchronize, begin_sync, hrec],
              fun _ => by simp [synchronize, begin_sync, hrec]⟩
      · simp [firstPhaseError] at hnone
    · rcases f with ef | ⟨⟩
      · refine ⟨fun e he => ?_, fun hnone => ?_⟩
        · replace he : some ef = some e := he
          injection he with he
          subst he
          refine ⟨fun hrec => ?_, fun hrec => ?_⟩
          · simp [synchronize, begin_sync, hrec]
          · rcases r with er | ⟨⟩
            · exact ⟨by simp [synchronize, begin_sync, hrec],
                fun hrb => by simp at hrb⟩
            · exact ⟨by simp [synchronize, begin_sync, hrec],
                fun _ => by simp [synchronize, begin_sync, hrec]⟩
        · simp [firstPhaseError] at hnone
      · refine ⟨fun e he => ?_, fun _ => ?_⟩
        · simp [firstPhaseError] at he
        · simp [synchronize, begin_sync]

/-- C2 witness data: the kernel phase fails with the non-recoverable
InvalidMmrRoot(Kernel) and the rollback succeeds. -/
def C2calls : SynchronizeCalls :=
  { prepare := Except.ok ()
    kernelsPhase := Except.error (HorizonSyncError.invalidMmrRoot MmrTree.kernel)
    outputsPhase := Except.ok ()
    finalize := Except.ok ()
    rollback := Except.ok () }

/-- C2 witness: the rollback is invoked and the phase error is returned. -/
theorem synchronize_rollback_witness :
    (synchronize C2calls).2 = true ∧
    (synchronize C2calls).1 =
      Except.error (HorizonSyncError.invalidMmrRoot MmrTree.kernel) := by
  have h := ((synchronize_rollback_on_nonrecoverable C2calls rfl).1
    (HorizonSyncError.invalidMmrRoot MmrTree.kernel) rfl).2 rfl
  exact ⟨h.1, h.2 rfl⟩

end Tari
